import Mathlib

/-!
Streaming chat completion use case.

A shallow embedding of `internal/usecase/chatcompletionstream/completion.go`.

`Execute` talks to three kinds of collaborators: the chat store
(`gateway.ChatGateway`), the provider client (`openai.Client`) and the entity
package (`entity.NewModel`, `entity.NewMessage`, `entity.NewChat`,
`Chat.AddMessage`).  None of them is defined in `completion.go`, so each is a
parameter of the embedding: a record of functions giving the answer of every
call.  A run of `Execute` is embedded as the pair of

* the *trace*: every collaborator call and every channel send, in program order,
  each with the arguments the code passes, and
* the *outcome*: what `Execute` returns (or that it does not return).

Go values of type `error` are represented by their `Error()` text, which is all
that `Execute` ever reads of them (apart from the `errors.Is(err, io.EOF)` test,
which is the constructor of `RecvResult`).
-/

namespace ChatCompletionStream

/-! ## Data model -/

/-- Value of Go type `float32`, given by its bit pattern.  `Execute` only copies
such values. -/
structure GoFloat32 where
  bits : Nat
deriving DecidableEq

/-- Go `context.Context`.  `Background` is the value of `context.Background()`,
which is never cancelled and has no deadline; `Derived k` stands for any other
context (one carrying a cancellation signal or a deadline). -/
inductive Context where
  | Background
  | Derived (id : Nat)
deriving DecidableEq

/-- Modelled from the spec: the declaration of `entity.Model` is not part of
`completion.go`.  The spec describes it as the LLM variant with its maximum
context size; `completion.go` reads the field `Name`. -/
structure Model where
  Name : String
  MaxTokens : Int
deriving DecidableEq

/-- Go struct `entity.ChatConfig`, with the fields `createNewChat` initialises. -/
structure ChatConfig where
  Temperature : GoFloat32
  TopP : GoFloat32
  N : Int
  Stop : List String
  MaxTokens : Int
  PresencePenalty : GoFloat32
  FrequencyPenalty : GoFloat32
  Model : Model
deriving DecidableEq

/-- Modelled from the spec: the declaration of `entity.Message` is not part of
`completion.go`.  The spec gives a message a role, a text content and a token
count; `completion.go` reads `Role` and `Content`. -/
structure Message where
  Role : String
  Content : String
  Tokens : Nat
deriving DecidableEq

/-- Modelled from the spec: the declaration of `entity.Chat` is not part of
`completion.go`.  The spec gives a chat an identity, an owner, a bound
configuration and an ordered message sequence; `completion.go` reads `ID`,
`Config` and `Messages`. -/
structure Chat where
  ID : String
  UserID : String
  Config : ChatConfig
  Messages : List Message
deriving DecidableEq

/-- Go struct `ChatCompletionConfigInputDTO`. -/
structure ChatCompletionConfigInputDTO where
  Model : String
  ModelMaxTokens : Int
  Temperature : GoFloat32
  TopP : GoFloat32
  N : Int
  Stop : List String
  MaxTokens : Int
  PresencePenalty : GoFloat32
  FrequencyPenalty : GoFloat32
  InitialSystemMessage : String
deriving DecidableEq

/-- Go struct `ChatCompletionInputDTO`. -/
structure ChatCompletionInputDTO where
  ChatID : String
  UserID : String
  UserMessage : String
  Config : ChatCompletionConfigInputDTO
deriving DecidableEq

/-- Go struct `ChatCompletionOutputDTO`. -/
structure ChatCompletionOutputDTO where
  ChatID : String
  UserID : String
  Content : String
deriving DecidableEq

/-- Go struct `openai.ChatCompletionMessage`, with the fields `Execute` sets. -/
structure ChatCompletionMessage where
  Role : String
  Content : String
deriving DecidableEq

/-- Go struct `openai.ChatCompletionRequest`, with the fields `Execute` sets. -/
structure ChatCompletionRequest where
  Model : String
  Messages : List ChatCompletionMessage
  MaxTokens : Int
  Temperature : GoFloat32
  TopP : GoFloat32
  PresencePenalty : GoFloat32
  FrequencyPenalty : GoFloat32
  Stop : List String
  Stream : Bool
deriving DecidableEq

/-- One element of `response.Choices`; `DeltaContent` is `Delta.Content`. -/
structure ChatCompletionStreamChoice where
  DeltaContent : String
deriving DecidableEq

/-- Go struct `openai.ChatCompletionStreamResponse`. -/
structure ChatCompletionStreamResponse where
  Choices : List ChatCompletionStreamChoice
deriving DecidableEq

/-- What one call of `resp.Recv()` gives back: a response with a nil error, an
error for which `errors.Is(err, io.EOF)` holds, or any other error (with its
text). -/
inductive RecvResult where
  | Response (response : ChatCompletionStreamResponse)
  | EOF
  | Err (err : String)
deriving DecidableEq

/-! ## Collaborators -/

/-- The functions of package `entity` that `completion.go` calls.  `AddMessage`
gives the chat after the call when it succeeds. -/
structure Entity where
  NewModel : String → Int → Model
  NewMessage : String → String → Model → Except String Message
  NewChat : String → Message → ChatConfig → Except String Chat
  AddMessage : Chat → Message → Except String Chat

/-- Go interface `gateway.ChatGateway`.  For `CreateChat` and `SaveChat` the
value `none` is a nil error. -/
structure ChatGateway where
  FindChatByID : Context → String → Except String Chat
  CreateChat : Context → Chat → Option String
  SaveChat : Context → Chat → Option String

/-- The provider client.  A stream handle is the list of the results its
successive `Recv()` calls give. -/
structure OpenAIClient where
  CreateChatCompletionStream :
    Context → ChatCompletionRequest → Except String (List RecvResult)

/-- Go struct `ChatCompletionUseCase`. -/
structure ChatCompletionUseCase where
  ChatGateway : ChatGateway
  OpenAIClient : OpenAIClient

/-! ## Runs -/

/-- One observable step of a run: a collaborator call with its arguments, or a
send on the output channel (`uc.Stream <- r`). -/
inductive Event where
  | FindChatByID (ctx : Context) (id : String)
  | CreateChat (ctx : Context) (chat : Chat)
  | SaveChat (ctx : Context) (chat : Chat)
  | NewModel (name : String) (maxTokens : Int)
  | NewMessage (role content : String) (model : Model)
  | NewChat (userID : String) (initialMessage : Message) (config : ChatConfig)
  | AddMessage (chat : Chat) (message : Message)
  | CreateChatCompletionStream (ctx : Context) (request : ChatCompletionRequest)
  | Recv
  | Send (r : ChatCompletionOutputDTO)
deriving DecidableEq

/-- Program-ordered list of events. -/
abbrev Trace := List Event

/-- How a call of `Execute` ends: `return output, nil`, `return nil, err`, a
run-time panic (`response.Choices[0]` on an empty slice), or no return at all
(the stream handle gives no further result). -/
inductive Outcome where
  | Ok (output : ChatCompletionOutputDTO)
  | Error (err : String)
  | Panicked
  | Blocked
deriving DecidableEq

/-- A run of `Execute`: its trace and its outcome. -/
structure Run where
  trace : Trace
  outcome : Outcome
deriving DecidableEq

/-- How the receive loop of `Execute` ends. -/
inductive LoopExit where
  | Done (fullResponse : String)
  | Failed (err : String)
  | Panicked
  | Blocked
deriving DecidableEq

/-! ## The code -/

/-- Function `createNewChat` (lines 132-154). -/
def createNewChat (E : Entity) (input : ChatCompletionInputDTO) :
    Trace × Except String Chat :=
  let model := E.NewModel input.Config.Model input.Config.ModelMaxTokens
  let chatConfig : ChatConfig :=
    { Temperature := input.Config.Temperature
      TopP := input.Config.TopP
      N := input.Config.N
      Stop := input.Config.Stop
      MaxTokens := input.Config.MaxTokens
      PresencePenalty := input.Config.PresencePenalty
      FrequencyPenalty := input.Config.FrequencyPenalty
      Model := model }
  let t : Trace :=
    [Event.NewModel input.Config.Model input.Config.ModelMaxTokens,
     Event.NewMessage "system" input.Config.InitialSystemMessage model]
  match E.NewMessage "system" input.Config.InitialSystemMessage model with
  | .error err => (t, .error ("error creating initial message: " ++ err))
  | .ok initialMessage =>
    match E.NewChat input.UserID initialMessage chatConfig with
    | .error err =>
      (t ++ [Event.NewChat input.UserID initialMessage chatConfig],
        .error ("error creating new chat: " ++ err))
    | .ok chat =>
      (t ++ [Event.NewChat input.UserID initialMessage chatConfig], .ok chat)

/-- Lines 48-62 of `Execute`: look the chat up, and create it when the lookup
error reads "chat not found". -/
def resolveChat (E : Entity) (uc : ChatCompletionUseCase) (ctx : Context)
    (input : ChatCompletionInputDTO) : Trace × Except String Chat :=
  let t : Trace := [Event.FindChatByID ctx input.ChatID]
  match uc.ChatGateway.FindChatByID ctx input.ChatID with
  | .ok chat => (t, .ok chat)
  | .error err =>
    if err = "chat not found" then
      match createNewChat E input with
      | (tc, .error err) => (t ++ tc, .error ("error creating new chat: " ++ err))
      | (tc, .ok chat) =>
        match uc.ChatGateway.CreateChat ctx chat with
        | some err =>
          (t ++ tc ++ [Event.CreateChat ctx chat],
            .error ("error persisting new chat: " ++ err))
        | none => (t ++ tc ++ [Event.CreateChat ctx chat], .ok chat)
    else
      (t, .error ("error fetching existing chat: " ++ err))

/-- Lines 71-77 of `Execute`: the loop that projects the chat history. -/
def projectMessages (chat : Chat) : List ChatCompletionMessage :=
  chat.Messages.foldl
    (fun messages msg => messages ++ [{ Role := msg.Role, Content := msg.Content }]) []

/-- Lines 80-90 of `Execute`: the request handed to the provider. -/
def buildRequest (chat : Chat) : ChatCompletionRequest :=
  { Model := chat.Config.Model.Name
    Messages := projectMessages chat
    MaxTokens := chat.Config.MaxTokens
    Temperature := chat.Config.Temperature
    TopP := chat.Config.TopP
    PresencePenalty := chat.Config.PresencePenalty
    FrequencyPenalty := chat.Config.FrequencyPenalty
    Stop := chat.Config.Stop
    Stream := true }

/-- Lines 96-111 of `Execute`: the receive loop, run on the results the stream
handle still has to give and on the text accumulated so far. -/
def recvLoop (chatID userID : String) : List RecvResult → String → Trace × LoopExit
  | [], _ => ([Event.Recv], LoopExit.Blocked)
  | RecvResult.EOF :: _, fullResponse => ([Event.Recv], LoopExit.Done fullResponse)
  | RecvResult.Err err :: _, _ => ([Event.Recv], LoopExit.Failed err)
  | RecvResult.Response response :: rest, fullResponse =>
    match response.Choices with
    | [] => ([Event.Recv], LoopExit.Panicked)
    | choice :: _ =>
      let fullResponse := fullResponse ++ choice.DeltaContent
      let r : ChatCompletionOutputDTO :=
        { ChatID := chatID, UserID := userID, Content := fullResponse }
      let next := recvLoop chatID userID rest fullResponse
      (Event.Recv :: Event.Send r :: next.1, next.2)

/-- Lines 112-129 of `Execute`: build the assistant message from the accumulated
text, append it, save the chat and build the result. -/
def finalize (E : Entity) (uc : ChatCompletionUseCase) (ctx : Context)
    (input : ChatCompletionInputDTO) (chat : Chat) (fullResponse : String) :
    Trace × Outcome :=
  let t6 : Trace := [Event.NewMessage "assistant" fullResponse chat.Config.Model]
  match E.NewMessage "assistant" fullResponse chat.Config.Model with
  | .error err => (t6, Outcome.Error err)
  | .ok assistant =>
    let t7 := t6 ++ [Event.AddMessage chat assistant]
    match E.AddMessage chat assistant with
    | .error err => (t7, Outcome.Error err)
    | .ok chat =>
      let t8 := t7 ++ [Event.SaveChat ctx chat]
      match uc.ChatGateway.SaveChat ctx chat with
      | some err => (t8, Outcome.Error err)
      | none =>
        (t8, Outcome.Ok
          { ChatID := chat.ID, UserID := input.UserID, Content := fullResponse })

/-- Method `ChatCompletionUseCase.Execute` (lines 47-130). -/
def Execute (E : Entity) (uc : ChatCompletionUseCase) (ctx : Context)
    (input : ChatCompletionInputDTO) : Run :=
  match resolveChat E uc ctx input with
  | (t1, .error err) => ⟨t1, Outcome.Error err⟩
  | (t1, .ok chat) =>
    let t2 := t1 ++ [Event.NewMessage "user" input.UserMessage chat.Config.Model]
    match E.NewMessage "user" input.UserMessage chat.Config.Model with
    | .error err => ⟨t2, Outcome.Error ("error creating new message: " ++ err)⟩
    | .ok userMessage =>
      let t3 := t2 ++ [Event.AddMessage chat userMessage]
      match E.AddMessage chat userMessage with
      | .error err => ⟨t3, Outcome.Error ("error adding new message: " ++ err)⟩
      | .ok chat =>
        let request := buildRequest chat
        let t4 := t3 ++ [Event.CreateChatCompletionStream Context.Background request]
        match uc.OpenAIClient.CreateChatCompletionStream Context.Background request with
        | .error err => ⟨t4, Outcome.Error ("error openai: " ++ err)⟩
        | .ok resp =>
          match recvLoop chat.ID input.UserID resp "" with
          | (t5, LoopExit.Failed err) =>
            ⟨t4 ++ t5, Outcome.Error ("error streaming response: " ++ err)⟩
          | (t5, LoopExit.Panicked) => ⟨t4 ++ t5, Outcome.Panicked⟩
          | (t5, LoopExit.Blocked) => ⟨t4 ++ t5, Outcome.Blocked⟩
          | (t5, LoopExit.Done fullResponse) =>
            let fin := finalize E uc ctx input chat fullResponse
            ⟨t4 ++ t5 ++ fin.1, fin.2⟩

/-! ## Observations on traces -/

/-- The results sent on the output channel, in order. -/
def sends (t : Trace) : List ChatCompletionOutputDTO :=
  t.filterMap fun e => match e with
    | Event.Send r => some r
    | _ => none

/-- The `SaveChat` calls, in order. -/
def saveCalls (t : Trace) : List (Context × Chat) :=
  t.filterMap fun e => match e with
    | Event.SaveChat c chat => some (c, chat)
    | _ => none

/-- The `CreateChat` calls, in order. -/
def createCalls (t : Trace) : List (Context × Chat) :=
  t.filterMap fun e => match e with
    | Event.CreateChat c chat => some (c, chat)
    | _ => none

/-- The `AddMessage` calls, in order. -/
def appends (t : Trace) : List (Chat × Message) :=
  t.filterMap fun e => match e with
    | Event.AddMessage chat m => some (chat, m)
    | _ => none

/-- The provider calls, in order. -/
def providerCalls (t : Trace) : List (Context × ChatCompletionRequest) :=
  t.filterMap fun e => match e with
    | Event.CreateChatCompletionStream c request => some (c, request)
    | _ => none

/-- The `NewMessage` calls made with the given role, in order. -/
def messageBuilds (role : String) (t : Trace) : List (String × Model) :=
  t.filterMap fun e => match e with
    | Event.NewMessage r content model => if r = role then some (content, model) else none
    | _ => none

/-- The first delta of a response, when it has a choice. -/
def firstDelta (response : ChatCompletionStreamResponse) : Option String :=
  response.Choices.head?.map fun c => c.DeltaContent

/-- The stream items carrying the given deltas, one choice each. -/
def deltaItems (deltas : List String) : List RecvResult :=
  deltas.map fun d => RecvResult.Response { Choices := [{ DeltaContent := d }] }

/-- The events of the receive loop while it consumes items carrying the deltas
`ds`, starting from the accumulated text `acc`. -/
def loopEvents (chatID userID : String) : String → List String → Trace
  | _, [] => []
  | acc, d :: ds =>
    Event.Recv :: Event.Send { ChatID := chatID, UserID := userID, Content := acc ++ d } ::
      loopEvents chatID userID (acc ++ d) ds

/-! ## The entity package as the specification describes it -/

/-- Modelled from the spec: the functions `entity.NewModel`, `entity.NewMessage`,
`entity.NewChat` and `Chat.AddMessage` are not part of `completion.go`.  Following
the data model of the specification: a model is a name with a token budget; a
message is built when its content can be tokenized for the model (`tokens` is the
tokenizer, `none` when it cannot), and carries its token count; a chat is created
with the initial message as its sole entry, that message being system-authored
and within the budget; a message is added at the end of the sequence when the
accumulated token count stays within the budget of the model, and otherwise the
call fails and the chat is left as it was.  `newID` is the identity given to a
new chat. -/
def specEntity (tokens : String → String → Option Nat) (newID : String) : Entity where
  NewModel name maxTokens := { Name := name, MaxTokens := maxTokens }
  NewMessage role content model :=
    match tokens model.Name content with
    | none => .error "content cannot be tokenized"
    | some n => .ok { Role := role, Content := content, Tokens := n }
  NewChat userID initialMessage config :=
    if initialMessage.Role = "system" ∧ (initialMessage.Tokens : Int) ≤ config.Model.MaxTokens then
      .ok { ID := newID, UserID := userID, Config := config, Messages := [initialMessage] }
    else
      .error "invalid initial message"
  AddMessage chat m :=
    if (((chat.Messages.map Message.Tokens).sum + m.Tokens : Nat) : Int)
        ≤ chat.Config.Model.MaxTokens then
      .ok { chat with Messages := chat.Messages ++ [m] }
    else
      .error "token budget exceeded"

/-- Modelled from the spec: what the data model of the specification promises
of the entity functions, which are not part of `completion.go`.  A model is its
name and budget; a built message has the role and content it was built from; a
new chat has the given owner and configuration and the initial message as sole
entry; a successful `AddMessage` puts the message at the end of the sequence and
changes nothing else. -/
structure EntityLaws (E : Entity) : Prop where
  newModel : ∀ name maxTokens, E.NewModel name maxTokens = { Name := name, MaxTokens := maxTokens }
  newMessage : ∀ role content model m, E.NewMessage role content model = .ok m →
    m.Role = role ∧ m.Content = content
  newChat : ∀ userID m config chat, E.NewChat userID m config = .ok chat →
    chat.UserID = userID ∧ chat.Config = config ∧ chat.Messages = [m]
  addMessage : ∀ chat m chat2, E.AddMessage chat m = .ok chat2 →
    chat2 = { chat with Messages := chat.Messages ++ [m] }

/-! ## Concrete collaborators used as inputs -/

/-- A tokenizer: one token per character, and no tokenization of the empty text. -/
def charTokens : String → String → Option Nat :=
  fun _ content => if content = "" then none else some content.length

/-- The entity package of the specification over `charTokens`; new chats get the
identity "chat-1". -/
def demoEntity : Entity := specEntity charTokens "chat-1"

/-- A configuration payload. -/
def demoConfig : ChatCompletionConfigInputDTO :=
  { Model := "gpt-3.5-turbo"
    ModelMaxTokens := 4096
    Temperature := ⟨1⟩
    TopP := ⟨2⟩
    N := 1
    Stop := ["END"]
    MaxTokens := 300
    PresencePenalty := ⟨3⟩
    FrequencyPenalty := ⟨4⟩
    InitialSystemMessage := "You are helpful." }

/-- An input for a chat identity the store may or may not know. -/
def demoInput : ChatCompletionInputDTO :=
  { ChatID := "chat-1", UserID := "user-1", UserMessage := "Hi", Config := demoConfig }

/-- The chat configuration `createNewChat` derives from `demoConfig`. -/
def demoChatConfig : ChatConfig :=
  { Temperature := ⟨1⟩
    TopP := ⟨2⟩
    N := 1
    Stop := ["END"]
    MaxTokens := 300
    PresencePenalty := ⟨3⟩
    FrequencyPenalty := ⟨4⟩
    Model := { Name := "gpt-3.5-turbo", MaxTokens := 4096 } }

/-- A stored chat holding its system message only. -/
def demoChat : Chat :=
  { ID := "chat-1"
    UserID := "user-1"
    Config := demoChatConfig
    Messages := [{ Role := "system", Content := "You are helpful.", Tokens := 16 }] }

/-- A store that knows no chat and accepts every write. -/
def emptyStore : ChatGateway :=
  { FindChatByID := fun _ _ => .error "chat not found"
    CreateChat := fun _ _ => none
    SaveChat := fun _ _ => none }

/-- A store that holds `demoChat` and accepts every write. -/
def demoStore : ChatGateway :=
  { FindChatByID := fun _ id => if id = demoChat.ID then .ok demoChat else .error "chat not found"
    CreateChat := fun _ _ => none
    SaveChat := fun _ _ => none }

/-- A store that holds `demoChat` and whose `SaveChat` fails. -/
def saveFailingStore : ChatGateway :=
  { FindChatByID := fun _ id => if id = demoChat.ID then .ok demoChat else .error "chat not found"
    CreateChat := fun _ _ => none
    SaveChat := fun _ _ => some "db down" }

/-- A store whose lookup fails for a reason other than an unknown chat. -/
def unreachableStore : ChatGateway :=
  { FindChatByID := fun _ _ => .error "connection refused"
    CreateChat := fun _ _ => none
    SaveChat := fun _ _ => none }

/-- A provider client whose stream gives the results of `script`. -/
def scriptedClient (script : List RecvResult) : OpenAIClient :=
  { CreateChatCompletionStream := fun _ _ => .ok script }

/-- A provider client whose streaming call fails. -/
def failingClient : OpenAIClient :=
  { CreateChatCompletionStream := fun _ _ => .error "401 unauthorized" }

/-- The stream of the specification's example: three deltas, then end of stream. -/
def helloScript : List RecvResult :=
  deltaItems ["Hel", "lo, ", "world"] ++ [RecvResult.EOF]

/-- A stream that fails after one delta. -/
def brokenScript : List RecvResult :=
  deltaItems ["Hel"] ++ [RecvResult.Err "connection reset"]

/-- The caller's context in the examples: one that can be cancelled. -/
def demoContext : Context := Context.Derived 1

/-- The use case over `demoStore` and the stream of the specification's example. -/
def demoUseCase : ChatCompletionUseCase :=
  { ChatGateway := demoStore, OpenAIClient := scriptedClient helloScript }

/-- The user message `demoEntity` builds from `demoInput`. -/
def demoUserMessage : Message := { Role := "user", Content := "Hi", Tokens := 2 }

/-- The chat `demoChat` once the user message is appended. -/
def demoChatWithUser : Chat :=
  { demoChat with Messages := demoChat.Messages ++ [demoUserMessage] }

/-- The responses of the stream of the specification's example. -/
def helloResponses : List ChatCompletionStreamResponse :=
  [{ Choices := [{ DeltaContent := "Hel" }] },
   { Choices := [{ DeltaContent := "lo, " }] },
   { Choices := [{ DeltaContent := "world" }] }]

/-- The answer `demoEntity` builds from the stream of the example. -/
def demoAssistantMessage : Message :=
  { Role := "assistant", Content := "Hello, world", Tokens := 12 }

/-- The chat `demoChatWithUser` once the answer is appended. -/
def demoChatWithAnswer : Chat :=
  { demoChat with Messages := demoChat.Messages ++ [demoUserMessage, demoAssistantMessage] }

/-- An input whose user text is empty, which `charTokens` cannot tokenize. -/
def emptyMessageInput : ChatCompletionInputDTO :=
  { demoInput with UserMessage := "" }

/-- The use case over `demoStore` and a stream that fails after one delta. -/
def brokenStreamUseCase : ChatCompletionUseCase :=
  { ChatGateway := demoStore, OpenAIClient := scriptedClient brokenScript }

/-- The use case over a store that knows no chat. -/
def newChatUseCase : ChatCompletionUseCase :=
  { ChatGateway := emptyStore, OpenAIClient := scriptedClient helloScript }

/-- The use case over a store whose lookup fails. -/
def unreachableUseCase : ChatCompletionUseCase :=
  { ChatGateway := unreachableStore, OpenAIClient := scriptedClient helloScript }

/-- The use case over a provider whose streaming call fails. -/
def failingProviderUseCase : ChatCompletionUseCase :=
  { ChatGateway := demoStore, OpenAIClient := failingClient }

/-- The use case over a store whose `SaveChat` fails. -/
def saveFailingUseCase : ChatCompletionUseCase :=
  { ChatGateway := saveFailingStore, OpenAIClient := scriptedClient helloScript }

/-! ## Auxiliary facts -/

theorem foldl_append_eq (l : List String) (a : String) :
    l.foldl (fun r s => r ++ s) a = a ++ String.join l := by
  induction l generalizing a with
  | nil => simp [String.join]
  | cons d l ih =>
    have h1 := ih (a ++ d)
    have h2 := ih ("" ++ d)
    simp only [String.join, List.foldl_cons] at h1 h2 ⊢
    rw [h1, h2, String.empty_append, String.append_assoc]

theorem join_nil : String.join [] = "" := rfl

theorem join_cons (d : String) (l : List String) :
    String.join (d :: l) = d ++ String.join l := by
  have h := foldl_append_eq l ("" ++ d)
  simp only [String.join, List.foldl_cons] at h ⊢
  rw [h, String.empty_append]

theorem join_append (l1 l2 : List String) :
    String.join (l1 ++ l2) = String.join l1 ++ String.join l2 := by
  induction l1 with
  | nil => simp [join_nil]
  | cons d l ih => simp [join_cons, ih, String.append_assoc]

theorem join_take_succ (ds : List String) (k : Nat) (hk : k + 1 < ds.length) :
    ∃ d, String.join (ds.take (k + 2)) = String.join (ds.take (k + 1)) ++ d := by
  refine ⟨ds[k + 1], ?_⟩
  rw [List.take_succ, join_append]
  simp [List.getElem?_eq_getElem hk, join_cons, join_nil]

theorem projectMessages_eq_map (chat : Chat) :
    projectMessages chat =
      chat.Messages.map fun m => ({ Role := m.Role, Content := m.Content } : ChatCompletionMessage) := by
  have h : ∀ (l : List Message) (acc : List ChatCompletionMessage),
      l.foldl (fun messages msg => messages ++ [{ Role := msg.Role, Content := msg.Content }]) acc
        = acc ++ l.map fun m => ({ Role := m.Role, Content := m.Content } : ChatCompletionMessage) := by
    intro l
    induction l with
    | nil => intro acc; simp
    | cons m l ih => intro acc; simp [ih]
  simpa [projectMessages] using h chat.Messages []

theorem firstDelta_cons_inv {r : ChatCompletionStreamResponse} {d : String}
    (h : firstDelta r = some d) : ∃ c cs, r.Choices = c :: cs ∧ c.DeltaContent = d := by
  unfold firstDelta at h
  cases hc : r.Choices with
  | nil => simp [hc] at h
  | cons c cs => exact ⟨c, cs, rfl, by simpa [hc] using h⟩

/-- The receive loop on a stream that starts with items carrying the deltas `ds`:
it goes through `loopEvents` and continues on the rest of the stream with the
deltas accumulated. -/
theorem recvLoop_items (chatID userID : String) (rs : List ChatCompletionStreamResponse)
    (ds : List String) (tail : List RecvResult) (acc : String)
    (hds : rs.map firstDelta = ds.map some) :
    recvLoop chatID userID (rs.map RecvResult.Response ++ tail) acc =
      (loopEvents chatID userID acc ds ++
          (recvLoop chatID userID tail (acc ++ String.join ds)).1,
        (recvLoop chatID userID tail (acc ++ String.join ds)).2) := by
  induction rs generalizing ds acc with
  | nil =>
    cases ds with
    | nil => simp [loopEvents, join_nil]
    | cons d ds => simp at hds
  | cons r rs ih =>
    cases ds with
    | nil => simp at hds
    | cons d ds =>
      simp only [List.map_cons, List.cons.injEq] at hds
      obtain ⟨c, cs, hc, hd⟩ := firstDelta_cons_inv hds.1
      have := ih ds (acc ++ d) hds.2
      rw [String.append_assoc] at this
      simp only [List.map_cons, List.cons_append, recvLoop, hc, hd, List.append_eq, this,
        loopEvents, join_cons]

/-- A receive loop that ends normally has consumed items with deltas and then a
clean stream end. -/
theorem recvLoop_done_inv (chatID userID : String) (script : List RecvResult) (acc : String)
    (t : Trace) (full : String) (h : recvLoop chatID userID script acc = (t, LoopExit.Done full)) :
    ∃ (rs : List ChatCompletionStreamResponse) (ds : List String) (rest : List RecvResult),
      script = rs.map RecvResult.Response ++ RecvResult.EOF :: rest ∧
      rs.map firstDelta = ds.map some ∧ full = acc ++ String.join ds ∧
      t = loopEvents chatID userID acc ds ++ [Event.Recv] := by
  induction script generalizing acc t with
  | nil => simp [recvLoop] at h
  | cons x script ih =>
    cases x with
    | EOF =>
      simp only [recvLoop, Prod.mk.injEq, LoopExit.Done.injEq] at h
      exact ⟨[], [], script, by simp, by simp, by simp [join_nil, h.2], by simp [loopEvents, h.1]⟩
    | Err e => simp [recvLoop] at h
    | Response r =>
      cases hc : r.Choices with
      | nil => simp [recvLoop, hc] at h
      | cons c cs =>
        simp only [recvLoop, hc, Prod.mk.injEq] at h
        obtain ⟨rs, ds, rest, h1, h2, h3, h4⟩ :=
          ih (acc ++ c.DeltaContent) (recvLoop chatID userID script (acc ++ c.DeltaContent)).1
            (by rw [← h.2])
        refine ⟨r :: rs, c.DeltaContent :: ds, rest, by simp [h1], ?_, ?_, ?_⟩
        · simp [h2, firstDelta, hc]
        · rw [h3, join_cons, String.append_assoc]
        · rw [← h.1, h4]; simp [loopEvents]

theorem sends_loopEvents_length (chatID userID : String) (acc : String) (ds : List String) :
    (sends (loopEvents chatID userID acc ds)).length = ds.length := by
  induction ds generalizing acc with
  | nil => simp [loopEvents, sends]
  | cons d ds ih =>
    have := ih (acc ++ d)
    simp only [sends] at this
    simp [loopEvents, sends, this]

theorem sends_loopEvents_get (chatID userID : String) (acc : String) (ds : List String)
    (k : Nat) (hk : k < ds.length) :
    (sends (loopEvents chatID userID acc ds))[k]? =
      some { ChatID := chatID, UserID := userID, Content := acc ++ String.join (ds.take (k + 1)) } := by
  induction ds generalizing acc k with
  | nil => simp at hk
  | cons d ds ih =>
    cases k with
    | zero => simp [loopEvents, sends, join_cons, join_nil]
    | succ k =>
      have := ih (acc ++ d) k (by simpa using hk)
      simp only [sends] at this
      simp [loopEvents, sends, this, join_cons, String.append_assoc]

theorem loopEvents_quiet (chatID userID : String) (acc : String) (ds : List String) :
    saveCalls (loopEvents chatID userID acc ds) = [] ∧
    createCalls (loopEvents chatID userID acc ds) = [] ∧
    appends (loopEvents chatID userID acc ds) = [] ∧
    providerCalls (loopEvents chatID userID acc ds) = [] ∧
    ∀ role, messageBuilds role (loopEvents chatID userID acc ds) = [] := by
  induction ds generalizing acc with
  | nil => simp [loopEvents, saveCalls, createCalls, appends, providerCalls, messageBuilds]
  | cons d ds ih =>
    have := ih (acc ++ d)
    simp only [saveCalls, createCalls, appends, providerCalls, messageBuilds] at this
    simp [loopEvents, saveCalls, createCalls, appends, providerCalls, messageBuilds, this]

/-- Chat resolution makes no send, no `SaveChat`, no `AddMessage`, no provider
call, builds no user or assistant message, and calls `CreateChat` at most once. -/
theorem resolveChat_quiet (E : Entity) (uc : ChatCompletionUseCase) (ctx : Context)
    (input : ChatCompletionInputDTO) :
    sends (resolveChat E uc ctx input).1 = [] ∧
    saveCalls (resolveChat E uc ctx input).1 = [] ∧
    appends (resolveChat E uc ctx input).1 = [] ∧
    providerCalls (resolveChat E uc ctx input).1 = [] ∧
    messageBuilds "user" (resolveChat E uc ctx input).1 = [] ∧
    messageBuilds "assistant" (resolveChat E uc ctx input).1 = [] ∧
    (createCalls (resolveChat E uc ctx input).1).length ≤ 1 := by
  unfold resolveChat createNewChat
  cases uc.ChatGateway.FindChatByID ctx input.ChatID with
  | ok chat => simp [sends, saveCalls, appends, providerCalls, messageBuilds, createCalls]
  | error err =>
    by_cases hnf : err = "chat not found"
    · simp only [hnf, if_true]
      cases E.NewMessage "system" input.Config.InitialSystemMessage
          (E.NewModel input.Config.Model input.Config.ModelMaxTokens) with
      | error e => simp [sends, saveCalls, appends, providerCalls, messageBuilds, createCalls]
      | ok m =>
        simp only []
        cases E.NewChat input.UserID m _ with
        | error e => simp [sends, saveCalls, appends, providerCalls, messageBuilds, createCalls]
        | ok chat =>
          simp only []
          cases uc.ChatGateway.CreateChat ctx chat <;>
            simp [sends, saveCalls, appends, providerCalls, messageBuilds, createCalls]
    · simp [hnf, sends, saveCalls, appends, providerCalls, messageBuilds, createCalls]

/-- The two ways chat resolution succeeds: the chat was found, or the lookup said
"chat not found" and the chat was built and created. -/
theorem resolveChat_ok_cases (E : Entity) (uc : ChatCompletionUseCase) (ctx : Context)
    (input : ChatCompletionInputDTO) (t1 : Trace) (chat0 : Chat)
    (h : resolveChat E uc ctx input = (t1, .ok chat0)) :
    (uc.ChatGateway.FindChatByID ctx input.ChatID = .ok chat0 ∧
        t1 = [Event.FindChatByID ctx input.ChatID]) ∨
    (uc.ChatGateway.FindChatByID ctx input.ChatID = .error "chat not found" ∧
        uc.ChatGateway.CreateChat ctx chat0 = none ∧
        ∃ tc, createNewChat E input = (tc, .ok chat0) ∧
          t1 = [Event.FindChatByID ctx input.ChatID] ++ tc ++ [Event.CreateChat ctx chat0]) := by
  unfold resolveChat at h
  cases hf : uc.ChatGateway.FindChatByID ctx input.ChatID with
  | ok chat =>
    simp only [hf, Prod.mk.injEq, Except.ok.injEq] at h
    exact Or.inl ⟨by rw [h.2], h.1.symm⟩
  | error err =>
    by_cases hnf : err = "chat not found"
    · subst hnf
      simp only [hf, if_true] at h
      rcases hc : createNewChat E input with ⟨tc, r⟩
      cases r with
      | error e => simp [hc] at h
      | ok chat =>
        simp only [hc] at h
        cases hcr : uc.ChatGateway.CreateChat ctx chat with
        | some e => simp [hcr] at h
        | none =>
          simp only [hcr, Prod.mk.injEq, Except.ok.injEq] at h
          obtain ⟨ht, hchat⟩ := h
          subst hchat
          exact Or.inr ⟨rfl, hcr, tc, rfl, ht.symm⟩
    · simp [hf, hnf] at h

/-- The run up to the provider call, when resolution, the user message and its
append succeed. -/
theorem Execute_stream_error_run (E : Entity) (uc : ChatCompletionUseCase) (ctx : Context)
    (input : ChatCompletionInputDTO) (t1 : Trace) (chat0 chat1 : Chat) (userMessage : Message)
    (rs : List ChatCompletionStreamResponse) (ds : List String) (err : String)
    (rest : List RecvResult)
    (hresolve : resolveChat E uc ctx input = (t1, .ok chat0))
    (huser : E.NewMessage "user" input.UserMessage chat0.Config.Model = .ok userMessage)
    (happend : E.AddMessage chat0 userMessage = .ok chat1)
    (hcall : uc.OpenAIClient.CreateChatCompletionStream Context.Background (buildRequest chat1)
      = .ok (rs.map RecvResult.Response ++ RecvResult.Err err :: rest))
    (hdeltas : rs.map firstDelta = ds.map some) :
    Execute E uc ctx input =
      ⟨t1 ++ [Event.NewMessage "user" input.UserMessage chat0.Config.Model,
              Event.AddMessage chat0 userMessage,
              Event.CreateChatCompletionStream Context.Background (buildRequest chat1)]
          ++ loopEvents chat1.ID input.UserID "" ds ++ [Event.Recv],
        Outcome.Error ("error streaming response: " ++ err)⟩ := by
  unfold Execute
  simp only [hresolve, huser, happend, hcall]
  rw [recvLoop_items chat1.ID input.UserID rs ds _ "" hdeltas]
  simp [recvLoop]

theorem Execute_stream_done_run (E : Entity) (uc : ChatCompletionUseCase) (ctx : Context)
    (input : ChatCompletionInputDTO) (t1 : Trace) (chat0 chat1 : Chat) (userMessage : Message)
    (rs : List ChatCompletionStreamResponse) (ds : List String) (rest : List RecvResult)
    (hresolve : resolveChat E uc ctx input = (t1, .ok chat0))
    (huser : E.NewMessage "user" input.UserMessage chat0.Config.Model = .ok userMessage)
    (happend : E.AddMessage chat0 userMessage = .ok chat1)
    (hcall : uc.OpenAIClient.CreateChatCompletionStream Context.Background (buildRequest chat1)
      = .ok (rs.map RecvResult.Response ++ RecvResult.EOF :: rest))
    (hdeltas : rs.map firstDelta = ds.map some) :
    Execute E uc ctx input =
      ⟨t1 ++ [Event.NewMessage "user" input.UserMessage chat0.Config.Model,
              Event.AddMessage chat0 userMessage,
              Event.CreateChatCompletionStream Context.Background (buildRequest chat1)]
          ++ loopEvents chat1.ID input.UserID "" ds ++ [Event.Recv]
          ++ (finalize E uc ctx input chat1 (String.join ds)).1,
        (finalize E uc ctx input chat1 (String.join ds)).2⟩ := by
  unfold Execute
  simp only [hresolve, huser, happend, hcall]
  rw [recvLoop_items chat1.ID input.UserID rs ds _ "" hdeltas]
  simp [recvLoop]

/-- What `finalize` does: it sends nothing, and it always returns. -/
theorem finalize_facts (E : Entity) (uc : ChatCompletionUseCase) (ctx : Context)
    (input : ChatCompletionInputDTO) (chat1 : Chat) (full : String) :
    sends (finalize E uc ctx input chat1 full).1 = [] ∧
    ((∃ out, (finalize E uc ctx input chat1 full).2 = Outcome.Ok out) ∨
      ∃ err, (finalize E uc ctx input chat1 full).2 = Outcome.Error err) ∧
    (∀ out, (finalize E uc ctx input chat1 full).2 = Outcome.Ok out → out.Content = full) := by
  unfold finalize
  cases E.NewMessage "assistant" full chat1.Config.Model with
  | error e => simp [sends]
  | ok assistant =>
    simp only []
    cases E.AddMessage chat1 assistant with
    | error e => simp [sends]
    | ok chat2 =>
      simp only []
      cases uc.ChatGateway.SaveChat ctx chat2 with
      | some e => simp [sends]
      | none =>
        refine ⟨by simp [sends], by simp, ?_⟩
        intro out h
        simp only [Outcome.Ok.injEq] at h
        rw [← h]

theorem finalize_ok (E : Entity) (uc : ChatCompletionUseCase) (ctx : Context)
    (input : ChatCompletionInputDTO) (chat1 chat2 : Chat) (full : String) (assistant : Message)
    (hassistant : E.NewMessage "assistant" full chat1.Config.Model = .ok assistant)
    (happend : E.AddMessage chat1 assistant = .ok chat2)
    (hsave : uc.ChatGateway.SaveChat ctx chat2 = none) :
    finalize E uc ctx input chat1 full =
      ([Event.NewMessage "assistant" full chat1.Config.Model,
        Event.AddMessage chat1 assistant, Event.SaveChat ctx chat2],
       Outcome.Ok { ChatID := chat2.ID, UserID := input.UserID, Content := full }) := by
  simp [finalize, hassistant, happend, hsave]

theorem finalize_ok_inv (E : Entity) (uc : ChatCompletionUseCase) (ctx : Context)
    (input : ChatCompletionInputDTO) (chat1 : Chat) (full : String)
    (out : ChatCompletionOutputDTO)
    (h : (finalize E uc ctx input chat1 full).2 = Outcome.Ok out) :
    ∃ assistant chat2, E.NewMessage "assistant" full chat1.Config.Model = .ok assistant ∧
      E.AddMessage chat1 assistant = .ok chat2 ∧ uc.ChatGateway.SaveChat ctx chat2 = none := by
  unfold finalize at h
  cases h1 : E.NewMessage "assistant" full chat1.Config.Model with
  | error e => simp [h1] at h
  | ok assistant =>
    simp only [h1] at h
    cases h2 : E.AddMessage chat1 assistant with
    | error e => simp [h2] at h
    | ok chat2 =>
      simp only [h2] at h
      cases h3 : uc.ChatGateway.SaveChat ctx chat2 with
      | some e => simp [h3] at h
      | none => exact ⟨assistant, chat2, rfl, h2, h3⟩

theorem sends_append (a b : Trace) : sends (a ++ b) = sends a ++ sends b := by
  simp [sends]

theorem saveCalls_append (a b : Trace) : saveCalls (a ++ b) = saveCalls a ++ saveCalls b := by
  simp [saveCalls]

theorem createCalls_append (a b : Trace) :
    createCalls (a ++ b) = createCalls a ++ createCalls b := by
  simp [createCalls]

theorem appends_append (a b : Trace) : appends (a ++ b) = appends a ++ appends b := by
  simp [appends]

theorem providerCalls_append (a b : Trace) :
    providerCalls (a ++ b) = providerCalls a ++ providerCalls b := by
  simp [providerCalls]

theorem messageBuilds_append (role : String) (a b : Trace) :
    messageBuilds role (a ++ b) = messageBuilds role a ++ messageBuilds role b := by
  simp [messageBuilds]

/-- The sends of a run that reaches the receive loop and consumes items carrying
the deltas `ds` before the loop ends, whatever comes after the loop. -/
theorem sends_of_stream_trace (t1 mid post : Trace) (chatID userID : String) (ds : List String)
    (h1 : sends t1 = []) (h2 : sends mid = []) (h3 : sends post = []) :
    (sends (t1 ++ mid ++ loopEvents chatID userID "" ds ++ [Event.Recv] ++ post)).length
        = ds.length ∧
    ∀ k, k < ds.length →
      (sends (t1 ++ mid ++ loopEvents chatID userID "" ds ++ [Event.Recv] ++ post))[k]? =
        some { ChatID := chatID, UserID := userID, Content := String.join (ds.take (k + 1)) } := by
  have hr : sends [Event.Recv] = [] := rfl
  simp only [sends_append, h1, h2, h3, hr, List.nil_append, List.append_nil]
  refine ⟨sends_loopEvents_length _ _ _ _, fun k hk => ?_⟩
  rw [sends_loopEvents_get _ _ _ _ k hk, String.empty_append]

/-- C1 (as amended): when chat resolution, the user message, its append and the
provider call have succeeded and the stream gives items carrying the deltas
`d1..dn` and then a clean end-of-stream, exactly `n` results are sent on the
output channel, the `k`-th one carrying the chat identity, the user identity and
the content `d1 ++ ... ++ dk`, so that each content extends the one before;
`Execute` then returns, and it returns a result, with content `d1 ++ ... ++ dn`,
exactly when the construction of the assistant message, its append and `SaveChat`
succeed too. -/
theorem Execute_emits_growing_concatenations (E : Entity) (uc : ChatCompletionUseCase)
    (ctx : Context) (input : ChatCompletionInputDTO) (t1 : Trace) (chat0 chat1 : Chat)
    (userMessage : Message) (rs : List ChatCompletionStreamResponse) (ds : List String)
    (rest : List RecvResult)
    (hresolve : resolveChat E uc ctx input = (t1, .ok chat0))
    (huser : E.NewMessage "user" input.UserMessage chat0.Config.Model = .ok userMessage)
    (happend : E.AddMessage chat0 userMessage = .ok chat1)
    (hcall : uc.OpenAIClient.CreateChatCompletionStream Context.Background (buildRequest chat1)
      = .ok (rs.map RecvResult.Response ++ RecvResult.EOF :: rest))
    (hdeltas : rs.map firstDelta = ds.map some) :
    (sends (Execute E uc ctx input).trace).length = ds.length ∧
    (∀ k, k < ds.length →
      (sends (Execute E uc ctx input).trace)[k]? =
        some { ChatID := chat1.ID, UserID := input.UserID,
               Content := String.join (ds.take (k + 1)) }) ∧
    (∀ k a b, (sends (Execute E uc ctx input).trace)[k]? = some a →
      (sends (Execute E uc ctx input).trace)[k + 1]? = some b →
      ∃ d, b.Content = a.Content ++ d) ∧
    ((∃ out, (Execute E uc ctx input).outcome = Outcome.Ok out) ∨
      ∃ err, (Execute E uc ctx input).outcome = Outcome.Error err) ∧
    (∀ out, (Execute E uc ctx input).outcome = Outcome.Ok out →
      out.Content = String.join ds) ∧
    ((∃ out, (Execute E uc ctx input).outcome = Outcome.Ok out) ↔
      ∃ assistant chat2,
        E.NewMessage "assistant" (String.join ds) chat1.Config.Model = .ok assistant ∧
        E.AddMessage chat1 assistant = .ok chat2 ∧
        uc.ChatGateway.SaveChat ctx chat2 = none) := by
  have hrun := Execute_stream_done_run E uc ctx input t1 chat0 chat1 userMessage rs ds rest
    hresolve huser happend hcall hdeltas
  have hq := resolveChat_quiet E uc ctx input
  rw [hresolve] at hq
  have hf := finalize_facts E uc ctx input chat1 (String.join ds)
  have hs := sends_of_stream_trace t1
    [Event.NewMessage "user" input.UserMessage chat0.Config.Model,
      Event.AddMessage chat0 userMessage,
      Event.CreateChatCompletionStream Context.Background (buildRequest chat1)]
    (finalize E uc ctx input chat1 (String.join ds)).1 chat1.ID input.UserID ds
    hq.1 rfl hf.1
  rw [hrun]
  refine ⟨hs.1, hs.2, ?_, hf.2.1, hf.2.2, ?_⟩
  · intro k a b ha hb
    have hlen := hs.1
    have hk1 : k + 1 < ds.length := by
      rw [← hlen]
      exact (List.getElem?_eq_some_iff.1 hb).1
    have ha2 := hs.2 k (by omega)
    have hb2 := hs.2 (k + 1) hk1
    rw [ha2] at ha
    rw [hb2] at hb
    simp only [Option.some.injEq] at ha hb
    obtain ⟨d, hd⟩ := join_take_succ ds k hk1
    exact ⟨d, by rw [← ha, ← hb]; exact hd⟩
  · constructor
    · rintro ⟨out, hout⟩
      exact finalize_ok_inv E uc ctx input chat1 (String.join ds) out hout
    · rintro ⟨assistant, chat2, h1, h2, h3⟩
      exact ⟨_, by rw [finalize_ok E uc ctx input chat1 chat2 _ assistant h1 h2 h3]⟩

theorem getLast?_append_last (a b : Trace) (e : Event) :
    (a ++ (b ++ [e])).getLast? = some e := by
  rw [← List.append_assoc]
  simp

/-- The receive loop only receives and sends, whatever the stream gives. -/
theorem recvLoop_quiet (chatID userID : String) (script : List RecvResult) (acc : String) :
    saveCalls (recvLoop chatID userID script acc).1 = [] ∧
    createCalls (recvLoop chatID userID script acc).1 = [] ∧
    appends (recvLoop chatID userID script acc).1 = [] ∧
    providerCalls (recvLoop chatID userID script acc).1 = [] ∧
    ∀ role, messageBuilds role (recvLoop chatID userID script acc).1 = [] := by
  induction script generalizing acc with
  | nil => simp [recvLoop, saveCalls, createCalls, appends, providerCalls, messageBuilds]
  | cons x script ih =>
    cases x with
    | EOF => simp [recvLoop, saveCalls, createCalls, appends, providerCalls, messageBuilds]
    | Err e => simp [recvLoop, saveCalls, createCalls, appends, providerCalls, messageBuilds]
    | Response r =>
      cases hc : r.Choices with
      | nil => simp [recvLoop, hc, saveCalls, createCalls, appends, providerCalls, messageBuilds]
      | cons c cs =>
        have := ih (acc ++ c.DeltaContent)
        simp only [saveCalls, createCalls, appends, providerCalls, messageBuilds] at this
        simp [recvLoop, hc, saveCalls, createCalls, appends, providerCalls, messageBuilds, this]

/-- The finalization calls neither `CreateChat` nor the provider. -/
theorem finalize_quiet (E : Entity) (uc : ChatCompletionUseCase) (ctx : Context)
    (input : ChatCompletionInputDTO) (chat1 : Chat) (full : String) :
    createCalls (finalize E uc ctx input chat1 full).1 = [] ∧
    providerCalls (finalize E uc ctx input chat1 full).1 = [] := by
  unfold finalize
  cases E.NewMessage "assistant" full chat1.Config.Model with
  | error e => simp [createCalls, providerCalls]
  | ok assistant =>
    simp only []
    cases E.AddMessage chat1 assistant with
    | error e => simp [createCalls, providerCalls]
    | ok chat2 =>
      simp only []
      cases uc.ChatGateway.SaveChat ctx chat2 <;> simp [createCalls, providerCalls]

/-- Once the user message is appended, the run continues with the provider call
on the request built from the chat; what follows makes no further provider call
and no `CreateChat` call. -/
theorem Execute_after_append (E : Entity) (uc : ChatCompletionUseCase) (ctx : Context)
    (input : ChatCompletionInputDTO) (t1 : Trace) (chat0 chat1 : Chat) (userMessage : Message)
    (hresolve : resolveChat E uc ctx input = (t1, .ok chat0))
    (huser : E.NewMessage "user" input.UserMessage chat0.Config.Model = .ok userMessage)
    (happend : E.AddMessage chat0 userMessage = .ok chat1) :
    ∃ post, (Execute E uc ctx input).trace =
        t1 ++ [Event.NewMessage "user" input.UserMessage chat0.Config.Model,
               Event.AddMessage chat0 userMessage,
               Event.CreateChatCompletionStream Context.Background (buildRequest chat1)] ++ post ∧
      providerCalls post = [] ∧ createCalls post = [] := by
  unfold Execute
  simp only [hresolve, huser, happend]
  cases uc.OpenAIClient.CreateChatCompletionStream Context.Background (buildRequest chat1) with
  | error e => exact ⟨[], by simp, rfl, rfl⟩
  | ok script =>
    simp only []
    have hl := recvLoop_quiet chat1.ID input.UserID script ""
    have hf := finalize_quiet E uc ctx input chat1
    rcases h5 : recvLoop chat1.ID input.UserID script "" with ⟨t5, x⟩
    rw [h5] at hl
    cases x with
    | Failed e => exact ⟨t5, by simp, hl.2.2.2.1, hl.2.1⟩
    | Panicked => exact ⟨t5, by simp, hl.2.2.2.1, hl.2.1⟩
    | Blocked => exact ⟨t5, by simp, hl.2.2.2.1, hl.2.1⟩
    | Done full =>
      refine ⟨t5 ++ (finalize E uc ctx input chat1 full).1, by simp, ?_, ?_⟩
      · rw [providerCalls_append, hl.2.2.2.1, (hf full).2]; rfl
      · rw [createCalls_append, hl.2.1, (hf full).1]; rfl

/-- Every run starts with chat resolution, and calls `CreateChat` nowhere else. -/
theorem Execute_after_resolve (E : Entity) (uc : ChatCompletionUseCase) (ctx : Context)
    (input : ChatCompletionInputDTO) :
    ∃ post, (Execute E uc ctx input).trace = (resolveChat E uc ctx input).1 ++ post ∧
      createCalls post = [] := by
  rcases h1 : resolveChat E uc ctx input with ⟨t1, r⟩
  cases r with
  | error e => exact ⟨[], by simp [Execute, h1], rfl⟩
  | ok chat0 =>
    cases h2 : E.NewMessage "user" input.UserMessage chat0.Config.Model with
    | error e =>
      exact ⟨[Event.NewMessage "user" input.UserMessage chat0.Config.Model],
        by simp [Execute, h1, h2], rfl⟩
    | ok userMessage =>
      cases h3 : E.AddMessage chat0 userMessage with
      | error e =>
        refine ⟨[Event.NewMessage "user" input.UserMessage chat0.Config.Model,
          Event.AddMessage chat0 userMessage], by simp [Execute, h1, h2, h3], rfl⟩
      | ok chat1 =>
        obtain ⟨post, hp, _, hc⟩ := Execute_after_append E uc ctx input t1 chat0 chat1 userMessage
          h1 h2 h3
        refine ⟨[Event.NewMessage "user" input.UserMessage chat0.Config.Model,
          Event.AddMessage chat0 userMessage,
          Event.CreateChatCompletionStream Context.Background (buildRequest chat1)] ++ post,
          by rw [hp, List.append_assoc], ?_⟩
        rw [createCalls_append, hc]; rfl

/-- C2: in every run of `Execute` that returns a result (every step succeeded),
`SaveChat` is called exactly once; that call is the last step of the run, hence
after the receive that gave the clean stream end; it is made on the chat obtained
by appending to the resolved chat first the message built with role "user" from
the input text and then the message built with role "assistant" from the
concatenation of all deltas of the stream; and these two are the only
`AddMessage` calls of the run.  When the entity functions behave as the data
model of the specification says, the saved chat holds the messages of the
resolved chat followed by that user message and that assistant message. -/
theorem Execute_success_saves_complete_chat (E : Entity) (uc : ChatCompletionUseCase)
    (ctx : Context) (input : ChatCompletionInputDTO) (out : ChatCompletionOutputDTO)
    (hok : (Execute E uc ctx input).outcome = Outcome.Ok out) :
    ∃ (t1 : Trace) (chat0 : Chat) (userMessage : Message) (chat1 : Chat)
      (rs : List ChatCompletionStreamResponse) (ds : List String) (rest : List RecvResult)
      (assistant : Message) (chat2 : Chat),
      resolveChat E uc ctx input = (t1, .ok chat0) ∧
      E.NewMessage "user" input.UserMessage chat0.Config.Model = .ok userMessage ∧
      E.AddMessage chat0 userMessage = .ok chat1 ∧
      uc.OpenAIClient.CreateChatCompletionStream Context.Background (buildRequest chat1)
        = .ok (rs.map RecvResult.Response ++ RecvResult.EOF :: rest) ∧
      rs.map firstDelta = ds.map some ∧
      E.NewMessage "assistant" (String.join ds) chat1.Config.Model = .ok assistant ∧
      E.AddMessage chat1 assistant = .ok chat2 ∧
      saveCalls (Execute E uc ctx input).trace = [(ctx, chat2)] ∧
      (Execute E uc ctx input).trace.getLast? = some (Event.SaveChat ctx chat2) ∧
      appends (Execute E uc ctx input).trace = [(chat0, userMessage), (chat1, assistant)] ∧
      messageBuilds "user" (Execute E uc ctx input).trace
        = [(input.UserMessage, chat0.Config.Model)] ∧
      messageBuilds "assistant" (Execute E uc ctx input).trace
        = [(String.join ds, chat1.Config.Model)] ∧
      out = { ChatID := chat2.ID, UserID := input.UserID, Content := String.join ds } ∧
      (EntityLaws E →
        chat2.Messages = chat0.Messages ++ [userMessage, assistant] ∧
        userMessage.Role = "user" ∧ userMessage.Content = input.UserMessage ∧
        assistant.Role = "assistant" ∧ assistant.Content = String.join ds) := by
  rcases h1 : resolveChat E uc ctx input with ⟨t1, r⟩
  cases r with
  | error e => simp [Execute, h1] at hok
  | ok chat0 =>
    cases h2 : E.NewMessage "user" input.UserMessage chat0.Config.Model with
    | error e => simp [Execute, h1, h2] at hok
    | ok userMessage =>
      cases h3 : E.AddMessage chat0 userMessage with
      | error e => simp [Execute, h1, h2, h3] at hok
      | ok chat1 =>
        cases h4 : uc.OpenAIClient.CreateChatCompletionStream Context.Background
            (buildRequest chat1) with
        | error e => simp [Execute, h1, h2, h3, h4] at hok
        | ok script =>
          rcases h5 : recvLoop chat1.ID input.UserID script "" with ⟨t5, x⟩
          cases x with
          | Failed e => simp [Execute, h1, h2, h3, h4, h5] at hok
          | Panicked => simp [Execute, h1, h2, h3, h4, h5] at hok
          | Blocked => simp [Execute, h1, h2, h3, h4, h5] at hok
          | Done full =>
            obtain ⟨rs, ds, rest, hs, hd, hfull, -⟩ := recvLoop_done_inv _ _ _ _ _ _ h5
            rw [String.empty_append] at hfull
            subst hfull hs
            have hrun := Execute_stream_done_run E uc ctx input t1 chat0 chat1 userMessage rs ds
              rest h1 h2 h3 h4 hd
            rw [hrun] at hok ⊢
            obtain ⟨assistant, chat2, ha, hb, hc⟩ :=
              finalize_ok_inv E uc ctx input chat1 (String.join ds) out hok
            have hfin := finalize_ok E uc ctx input chat1 chat2 _ assistant ha hb hc
            rw [hfin] at hok ⊢
            have hq := resolveChat_quiet E uc ctx input
            rw [h1] at hq
            simp only [] at hq
            have hl := loopEvents_quiet chat1.ID input.UserID "" ds
            refine ⟨t1, chat0, userMessage, chat1, rs, ds, rest, assistant, chat2, rfl, h2, h3,
              h4, hd, ha, hb, ?_, ?_, ?_, ?_, ?_, ?_, ?_⟩
            · simp only [saveCalls_append, hq.2.1, hl.1]
              simp [saveCalls]
            · exact getLast?_append_last _
                [Event.NewMessage "assistant" (String.join ds) chat1.Config.Model,
                  Event.AddMessage chat1 assistant] _
            · simp only [appends_append, hq.2.2.1, hl.2.2.1]
              simp [appends]
            · simp only [messageBuilds_append, hq.2.2.2.2.1, hl.2.2.2.2]
              simp [messageBuilds]
            · simp only [messageBuilds_append, hq.2.2.2.2.2.1, hl.2.2.2.2]
              simp [messageBuilds]
            · simp only [Outcome.Ok.injEq] at hok
              exact hok.symm
            · intro hlaws
              have e1 := hlaws.addMessage chat0 userMessage chat1 h3
              have e2 := hlaws.addMessage chat1 assistant chat2 hb
              have r1 := hlaws.newMessage _ _ _ _ h2
              have r2 := hlaws.newMessage _ _ _ _ ha
              refine ⟨?_, r1.1, r1.2, r2.1, r2.2⟩
              rw [e2, e1]
              simp

/-- C3: when the stream gives `k` items carrying deltas and then an error other
than end-of-stream, `Execute` returns the error "error streaming response: "
followed by the cause, and no result; `SaveChat` is not called; no assistant
message is built; the only `AddMessage` call is the one of the user message; the
output channel has received exactly the `k` results of the deltas before the
error; and the failed receive is the last step of the run. -/
theorem Execute_stream_error_aborts (E : Entity) (uc : ChatCompletionUseCase) (ctx : Context)
    (input : ChatCompletionInputDTO) (t1 : Trace) (chat0 chat1 : Chat) (userMessage : Message)
    (rs : List ChatCompletionStreamResponse) (ds : List String) (err : String)
    (rest : List RecvResult)
    (hresolve : resolveChat E uc ctx input = (t1, .ok chat0))
    (huser : E.NewMessage "user" input.UserMessage chat0.Config.Model = .ok userMessage)
    (happend : E.AddMessage chat0 userMessage = .ok chat1)
    (hcall : uc.OpenAIClient.CreateChatCompletionStream Context.Background (buildRequest chat1)
      = .ok (rs.map RecvResult.Response ++ RecvResult.Err err :: rest))
    (hdeltas : rs.map firstDelta = ds.map some) :
    (Execute E uc ctx input).outcome = Outcome.Error ("error streaming response: " ++ err) ∧
    saveCalls (Execute E uc ctx input).trace = [] ∧
    messageBuilds "assistant" (Execute E uc ctx input).trace = [] ∧
    appends (Execute E uc ctx input).trace = [(chat0, userMessage)] ∧
    (sends (Execute E uc ctx input).trace).length = ds.length ∧
    (∀ k, k < ds.length →
      (sends (Execute E uc ctx input).trace)[k]? =
        some { ChatID := chat1.ID, UserID := input.UserID,
               Content := String.join (ds.take (k + 1)) }) ∧
    (Execute E uc ctx input).trace.getLast? = some Event.Recv := by
  have hrun := Execute_stream_error_run E uc ctx input t1 chat0 chat1 userMessage rs ds err rest
    hresolve huser happend hcall hdeltas
  have hq := resolveChat_quiet E uc ctx input
  rw [hresolve] at hq
  simp only [] at hq
  have hl := loopEvents_quiet chat1.ID input.UserID "" ds
  have hs := sends_of_stream_trace t1
    [Event.NewMessage "user" input.UserMessage chat0.Config.Model,
      Event.AddMessage chat0 userMessage,
      Event.CreateChatCompletionStream Context.Background (buildRequest chat1)]
    [] chat1.ID input.UserID ds hq.1 rfl rfl
  rw [List.append_nil] at hs
  rw [hrun]
  refine ⟨rfl, ?_, ?_, ?_, hs.1, hs.2, getLast?_append_last _ [] _⟩
  · simp only [saveCalls_append, hq.2.1, hl.1]
    simp [saveCalls]
  · simp only [messageBuilds_append, hq.2.2.2.2.2.1, hl.2.2.2.2]
    simp [messageBuilds]
  · simp only [appends_append, hq.2.2.1, hl.2.2.1]
    simp [appends]

/-- C4: when the chat lookup fails with an error whose text is not "chat not
found", the whole run of `Execute` is that one lookup: it returns "error fetching
existing chat: " followed by the cause, and makes no `CreateChat` call, no
`AddMessage` call, no provider call, no send and no `SaveChat` call. -/
theorem Execute_lookup_failure_aborts (E : Entity) (uc : ChatCompletionUseCase) (ctx : Context)
    (input : ChatCompletionInputDTO) (err : String)
    (hfind : uc.ChatGateway.FindChatByID ctx input.ChatID = .error err)
    (hother : err ≠ "chat not found") :
    Execute E uc ctx input =
      ⟨[Event.FindChatByID ctx input.ChatID],
        Outcome.Error ("error fetching existing chat: " ++ err)⟩ ∧
    createCalls (Execute E uc ctx input).trace = [] ∧
    appends (Execute E uc ctx input).trace = [] ∧
    providerCalls (Execute E uc ctx input).trace = [] ∧
    sends (Execute E uc ctx input).trace = [] ∧
    saveCalls (Execute E uc ctx input).trace = [] := by
  have hrun : Execute E uc ctx input =
      ⟨[Event.FindChatByID ctx input.ChatID],
        Outcome.Error ("error fetching existing chat: " ++ err)⟩ := by
    simp [Execute, resolveChat, hfind, hother]
  rw [hrun]
  exact ⟨rfl, rfl, rfl, rfl, rfl, rfl⟩

theorem specEntity_laws (tokens : String → String → Option Nat) (newID : String) :
    EntityLaws (specEntity tokens newID) where
  newModel := fun _ _ => rfl
  newMessage := by
    intro role content model m h
    simp only [specEntity] at h
    cases ht : tokens model.Name content with
    | none => simp [ht] at h
    | some n =>
      simp only [ht, Except.ok.injEq] at h
      subst h
      exact ⟨rfl, rfl⟩
  newChat := by
    intro userID m config chat h
    simp only [specEntity] at h
    split at h
    · simp only [Except.ok.injEq] at h
      subst h
      exact ⟨rfl, rfl, rfl⟩
    · simp at h
  addMessage := by
    intro chat m chat2 h
    simp only [specEntity] at h
    split at h
    · simp only [Except.ok.injEq] at h
      exact h.symm
    · simp at h

/-- What a successful `createNewChat` has called. -/
theorem createNewChat_ok_inv (E : Entity) (input : ChatCompletionInputDTO) (tc : Trace)
    (chat : Chat) (h : createNewChat E input = (tc, .ok chat)) :
    ∃ m, E.NewMessage "system" input.Config.InitialSystemMessage
        (E.NewModel input.Config.Model input.Config.ModelMaxTokens) = .ok m ∧
      E.NewChat input.UserID m
        { Temperature := input.Config.Temperature
          TopP := input.Config.TopP
          N := input.Config.N
          Stop := input.Config.Stop
          MaxTokens := input.Config.MaxTokens
          PresencePenalty := input.Config.PresencePenalty
          FrequencyPenalty := input.Config.FrequencyPenalty
          Model := E.NewModel input.Config.Model input.Config.ModelMaxTokens } = .ok chat ∧
      tc = [Event.NewModel input.Config.Model input.Config.ModelMaxTokens,
            Event.NewMessage "system" input.Config.InitialSystemMessage
              (E.NewModel input.Config.Model input.Config.ModelMaxTokens),
            Event.NewChat input.UserID m
              { Temperature := input.Config.Temperature
                TopP := input.Config.TopP
                N := input.Config.N
                Stop := input.Config.Stop
                MaxTokens := input.Config.MaxTokens
                PresencePenalty := input.Config.PresencePenalty
                FrequencyPenalty := input.Config.FrequencyPenalty
                Model := E.NewModel input.Config.Model input.Config.ModelMaxTokens }] := by
  unfold createNewChat at h
  cases h1 : E.NewMessage "system" input.Config.InitialSystemMessage
      (E.NewModel input.Config.Model input.Config.ModelMaxTokens) with
  | error e => simp [h1] at h
  | ok m =>
    simp only [h1] at h
    split at h
    · simp at h
    · rename_i c h2
      simp only [Prod.mk.injEq, Except.ok.injEq] at h
      obtain ⟨ht, hc⟩ := h
      subst hc
      exact ⟨m, rfl, h2, ht.symm⟩

/-- The trace of chat resolution when the lookup says "chat not found" and the
chat is built: lookup, construction, then `CreateChat`. -/
theorem resolveChat_trace_created (E : Entity) (uc : ChatCompletionUseCase) (ctx : Context)
    (input : ChatCompletionInputDTO) (tc : Trace) (chat : Chat)
    (hfind : uc.ChatGateway.FindChatByID ctx input.ChatID = .error "chat not found")
    (hvalid : createNewChat E input = (tc, .ok chat)) :
    (resolveChat E uc ctx input).1 =
      [Event.FindChatByID ctx input.ChatID] ++ tc ++ [Event.CreateChat ctx chat] := by
  unfold resolveChat
  simp only [hfind, if_true, hvalid]
  cases uc.ChatGateway.CreateChat ctx chat <;> rfl

/-- C5: when the lookup says "chat not found" and the configuration is valid,
that is, `entity.NewMessage` accepts the initial system message for the model
made of the payload's model name and maximum tokens, and `entity.NewChat` accepts
that message with the configuration copied from the payload and the input
`UserID` as owner, then `createNewChat` succeeds and returns the chat `NewChat`
gave; chat resolution consists of the lookup, these constructions and one
`CreateChat` call with that chat, and returns the chat when `CreateChat`
succeeds; `CreateChat` is called exactly once in the whole run, with that chat;
and no `AddMessage` call and no construction of a user message precedes that
call.  When the entity functions behave as the data model of the specification
says, the chat has a single message, of role "system" and with the content
`InitialSystemMessage`, its owner is the input `UserID`, and its configuration
copies every generation parameter of the payload, with the model made of the
model name and its maximum tokens. -/
theorem Execute_bootstraps_new_chat (E : Entity) (uc : ChatCompletionUseCase) (ctx : Context)
    (input : ChatCompletionInputDTO) (m : Message) (chat : Chat)
    (hfind : uc.ChatGateway.FindChatByID ctx input.ChatID = .error "chat not found")
    (hmessage : E.NewMessage "system" input.Config.InitialSystemMessage
      (E.NewModel input.Config.Model input.Config.ModelMaxTokens) = .ok m)
    (hchat : E.NewChat input.UserID m
      { Temperature := input.Config.Temperature
        TopP := input.Config.TopP
        N := input.Config.N
        Stop := input.Config.Stop
        MaxTokens := input.Config.MaxTokens
        PresencePenalty := input.Config.PresencePenalty
        FrequencyPenalty := input.Config.FrequencyPenalty
        Model := E.NewModel input.Config.Model input.Config.ModelMaxTokens } = .ok chat) :
    createNewChat E input =
      ([Event.NewModel input.Config.Model input.Config.ModelMaxTokens,
        Event.NewMessage "system" input.Config.InitialSystemMessage
          (E.NewModel input.Config.Model input.Config.ModelMaxTokens),
        Event.NewChat input.UserID m
          { Temperature := input.Config.Temperature
            TopP := input.Config.TopP
            N := input.Config.N
            Stop := input.Config.Stop
            MaxTokens := input.Config.MaxTokens
            PresencePenalty := input.Config.PresencePenalty
            FrequencyPenalty := input.Config.FrequencyPenalty
            Model := E.NewModel input.Config.Model input.Config.ModelMaxTokens }],
       .ok chat) ∧
    (resolveChat E uc ctx input).1 =
      [Event.FindChatByID ctx input.ChatID] ++ (createNewChat E input).1
        ++ [Event.CreateChat ctx chat] ∧
    (uc.ChatGateway.CreateChat ctx chat = none →
      (resolveChat E uc ctx input).2 = .ok chat) ∧
    createCalls (Execute E uc ctx input).trace = [(ctx, chat)] ∧
    (∃ post, (Execute E uc ctx input).trace =
        [Event.FindChatByID ctx input.ChatID] ++ (createNewChat E input).1
          ++ Event.CreateChat ctx chat :: post ∧
      appends ([Event.FindChatByID ctx input.ChatID] ++ (createNewChat E input).1) = [] ∧
      messageBuilds "user"
        ([Event.FindChatByID ctx input.ChatID] ++ (createNewChat E input).1) = []) ∧
    (EntityLaws E →
      chat.Messages = [m] ∧ m.Role = "system" ∧
      m.Content = input.Config.InitialSystemMessage ∧
      chat.UserID = input.UserID ∧
      chat.Config =
        { Temperature := input.Config.Temperature
          TopP := input.Config.TopP
          N := input.Config.N
          Stop := input.Config.Stop
          MaxTokens := input.Config.MaxTokens
          PresencePenalty := input.Config.PresencePenalty
          FrequencyPenalty := input.Config.FrequencyPenalty
          Model := { Name := input.Config.Model, MaxTokens := input.Config.ModelMaxTokens } }) := by
  have hnew : createNewChat E input =
      ([Event.NewModel input.Config.Model input.Config.ModelMaxTokens,
        Event.NewMessage "system" input.Config.InitialSystemMessage
          (E.NewModel input.Config.Model input.Config.ModelMaxTokens),
        Event.NewChat input.UserID m
          { Temperature := input.Config.Temperature
            TopP := input.Config.TopP
            N := input.Config.N
            Stop := input.Config.Stop
            MaxTokens := input.Config.MaxTokens
            PresencePenalty := input.Config.PresencePenalty
            FrequencyPenalty := input.Config.FrequencyPenalty
            Model := E.NewModel input.Config.Model input.Config.ModelMaxTokens }],
       .ok chat) := by
    simp only [createNewChat, hmessage, hchat]
    rfl
  have htrace := resolveChat_trace_created E uc ctx input _ chat hfind hnew
  obtain ⟨post, hpost, hnocreate⟩ := Execute_after_resolve E uc ctx input
  rw [htrace] at hpost
  refine ⟨hnew, ?_, ?_, ?_, ⟨post, ?_, ?_, ?_⟩, ?_⟩
  · rw [htrace, hnew]
  · intro hcreate
    simp [resolveChat, hfind, hnew, hcreate]
  · rw [hpost]
    simp only [createCalls_append, hnocreate]
    simp [createCalls]
  · rw [hpost, hnew]; simp
  · rw [hnew]; simp [appends]
  · rw [hnew]; simp [messageBuilds]
  · intro hlaws
    obtain ⟨hrole, hcontent⟩ := hlaws.newMessage _ _ _ _ hmessage
    obtain ⟨howner, hconfig, hmsgs⟩ := hlaws.newChat _ _ _ _ hchat
    exact ⟨hmsgs, hrole, hcontent, howner, by rw [hconfig, hlaws.newModel]⟩

/-- C6: when the provider's streaming call fails, `Execute` returns the error
"error openai: " followed by the cause, and no result; nothing is sent on the
output channel; `SaveChat` is not called; and the `CreateChat` calls of the run
are those of chat resolution, of which there is at most one. -/
theorem Execute_provider_failure_aborts (E : Entity) (uc : ChatCompletionUseCase)
    (ctx : Context) (input : ChatCompletionInputDTO) (t1 : Trace) (chat0 chat1 : Chat)
    (userMessage : Message) (err : String)
    (hresolve : resolveChat E uc ctx input = (t1, .ok chat0))
    (huser : E.NewMessage "user" input.UserMessage chat0.Config.Model = .ok userMessage)
    (happend : E.AddMessage chat0 userMessage = .ok chat1)
    (hcall : uc.OpenAIClient.CreateChatCompletionStream Context.Background (buildRequest chat1)
      = .error err) :
    (Execute E uc ctx input).outcome = Outcome.Error ("error openai: " ++ err) ∧
    sends (Execute E uc ctx input).trace = [] ∧
    saveCalls (Execute E uc ctx input).trace = [] ∧
    createCalls (Execute E uc ctx input).trace = createCalls t1 ∧
    (createCalls t1).length ≤ 1 := by
  have hrun : Execute E uc ctx input =
      ⟨t1 ++ [Event.NewMessage "user" input.UserMessage chat0.Config.Model,
              Event.AddMessage chat0 userMessage,
              Event.CreateChatCompletionStream Context.Background (buildRequest chat1)],
        Outcome.Error ("error openai: " ++ err)⟩ := by
    simp [Execute, hresolve, huser, happend, hcall]
  have hq := resolveChat_quiet E uc ctx input
  rw [hresolve] at hq
  simp only [] at hq
  rw [hrun]
  refine ⟨rfl, ?_, ?_, ?_, hq.2.2.2.2.2.2⟩
  · simp only [sends_append, hq.1]; rfl
  · simp only [saveCalls_append, hq.2.1]; rfl
  · simp only [createCalls_append]
    simp [createCalls]

/-- C8 (as amended): when the construction of the user message fails, `Execute`
returns the error "error creating new message: " followed by the cause, having
made no `SaveChat` call, no `AddMessage` call, no provider call and no send; it
has made no `CreateChat` call when the lookup found the chat, and exactly one,
during chat resolution, when the lookup did not. -/
theorem Execute_user_message_failure_aborts (E : Entity) (uc : ChatCompletionUseCase)
    (ctx : Context) (input : ChatCompletionInputDTO) (t1 : Trace) (chat0 : Chat) (err : String)
    (hresolve : resolveChat E uc ctx input = (t1, .ok chat0))
    (huser : E.NewMessage "user" input.UserMessage chat0.Config.Model = .error err) :
    (Execute E uc ctx input).outcome = Outcome.Error ("error creating new message: " ++ err) ∧
    saveCalls (Execute E uc ctx input).trace = [] ∧
    appends (Execute E uc ctx input).trace = [] ∧
    providerCalls (Execute E uc ctx input).trace = [] ∧
    sends (Execute E uc ctx input).trace = [] ∧
    (∀ found, uc.ChatGateway.FindChatByID ctx input.ChatID = .ok found →
      createCalls (Execute E uc ctx input).trace = []) ∧
    (∀ cause, uc.ChatGateway.FindChatByID ctx input.ChatID = .error cause →
      createCalls (Execute E uc ctx input).trace = [(ctx, chat0)]) := by
  have hrun : Execute E uc ctx input =
      ⟨t1 ++ [Event.NewMessage "user" input.UserMessage chat0.Config.Model],
        Outcome.Error ("error creating new message: " ++ err)⟩ := by
    simp [Execute, hresolve, huser]
  have hq := resolveChat_quiet E uc ctx input
  rw [hresolve] at hq
  simp only [] at hq
  rw [hrun]
  refine ⟨rfl, ?_, ?_, ?_, ?_, ?_, ?_⟩
  · simp only [saveCalls_append, hq.2.1]; rfl
  · simp only [appends_append, hq.2.2.1]; rfl
  · simp only [providerCalls_append, hq.2.2.2.1]; rfl
  · simp only [sends_append, hq.1]; rfl
  · intro found hfound
    rcases resolveChat_ok_cases E uc ctx input t1 chat0 hresolve with h | h
    · rw [h.2]; rfl
    · rw [h.1] at hfound; cases hfound
  · intro cause hcause
    rcases resolveChat_ok_cases E uc ctx input t1 chat0 hresolve with h | h
    · rw [h.1] at hcause; cases hcause
    · obtain ⟨-, -, tc, hnew, ht⟩ := h
      obtain ⟨m, -, -, htc⟩ := createNewChat_ok_inv E input tc chat0 hnew
      rw [ht, htc]
      simp [createCalls]

/-- C10: once the user message is appended, the run makes exactly one provider
call; the message list of its request has the length of the chat's message
sequence and its `i`-th entry carries the role and the content of the chat's
`i`-th message; the model name, maximum tokens, temperature, top-p, penalties and
stop sequences of the request are those of the configuration bound to the chat;
and the streaming flag is set. -/
theorem Execute_request_projects_history (E : Entity) (uc : ChatCompletionUseCase)
    (ctx : Context) (input : ChatCompletionInputDTO) (t1 : Trace) (chat0 chat1 : Chat)
    (userMessage : Message)
    (hresolve : resolveChat E uc ctx input = (t1, .ok chat0))
    (huser : E.NewMessage "user" input.UserMessage chat0.Config.Model = .ok userMessage)
    (happend : E.AddMessage chat0 userMessage = .ok chat1) :
    ∃ c request, providerCalls (Execute E uc ctx input).trace = [(c, request)] ∧
      request.Messages.length = chat1.Messages.length ∧
      (∀ i : Nat, request.Messages[i]? =
        (chat1.Messages[i]?).map fun (m : Message) =>
          ({ Role := m.Role, Content := m.Content } : ChatCompletionMessage)) ∧
      request.Model = chat1.Config.Model.Name ∧
      request.MaxTokens = chat1.Config.MaxTokens ∧
      request.Temperature = chat1.Config.Temperature ∧
      request.TopP = chat1.Config.TopP ∧
      request.PresencePenalty = chat1.Config.PresencePenalty ∧
      request.FrequencyPenalty = chat1.Config.FrequencyPenalty ∧
      request.Stop = chat1.Config.Stop ∧
      request.Stream = true := by
  obtain ⟨post, hpost, hnocall, -⟩ :=
    Execute_after_append E uc ctx input t1 chat0 chat1 userMessage hresolve huser happend
  have hq := resolveChat_quiet E uc ctx input
  rw [hresolve] at hq
  simp only [] at hq
  refine ⟨Context.Background, buildRequest chat1, ?_, ?_, ?_, rfl, rfl, rfl, rfl, rfl, rfl, rfl,
    rfl⟩
  · rw [hpost]
    simp only [providerCalls_append, hq.2.2.2.1, hnocall]
    simp [providerCalls]
  · simp [buildRequest, projectMessages_eq_map]
  · intro i
    simp [buildRequest, projectMessages_eq_map]

/-- Witness of C1 (as amended): the stream "Hel", "lo, ", "world" on a stored
chat gives three sends, the last one and the result carrying "Hello, world". -/
theorem Execute_emits_growing_concatenations_witness :
    resolveChat demoEntity demoUseCase demoContext demoInput
      = ([Event.FindChatByID demoContext "chat-1"], .ok demoChat) ∧
    demoEntity.NewMessage "user" demoInput.UserMessage demoChat.Config.Model
      = .ok demoUserMessage ∧
    demoEntity.AddMessage demoChat demoUserMessage = .ok demoChatWithUser ∧
    demoUseCase.OpenAIClient.CreateChatCompletionStream Context.Background
        (buildRequest demoChatWithUser)
      = .ok (helloResponses.map RecvResult.Response ++ RecvResult.EOF :: []) ∧
    helloResponses.map firstDelta = ["Hel", "lo, ", "world"].map some ∧
    (sends (Execute demoEntity demoUseCase demoContext demoInput).trace).length = 3 ∧
    (sends (Execute demoEntity demoUseCase demoContext demoInput).trace)[0]?
      = some { ChatID := "chat-1", UserID := "user-1", Content := "Hel" } ∧
    (sends (Execute demoEntity demoUseCase demoContext demoInput).trace)[1]?
      = some { ChatID := "chat-1", UserID := "user-1", Content := "Hello, " } ∧
    (sends (Execute demoEntity demoUseCase demoContext demoInput).trace)[2]?
      = some { ChatID := "chat-1", UserID := "user-1", Content := "Hello, world" } ∧
    (∀ out, (Execute demoEntity demoUseCase demoContext demoInput).outcome = Outcome.Ok out →
      out.Content = "Hello, world") := by
  have h := Execute_emits_growing_concatenations demoEntity demoUseCase demoContext demoInput
    [Event.FindChatByID demoContext "chat-1"] demoChat demoChatWithUser demoUserMessage
    helloResponses ["Hel", "lo, ", "world"] [] rfl rfl rfl rfl rfl
  exact ⟨rfl, rfl, rfl, rfl, rfl, h.1, h.2.1 0 (by decide), h.2.1 1 (by decide),
    h.2.1 2 (by decide), h.2.2.2.2.1⟩

/-- Counterexample to C1 as stated: every step before the stream succeeds and
the stream gives "Hel", "lo, ", "world" and a clean end-of-stream, the three
results are sent, and yet `Execute` returns an error and no result, because
`SaveChat` fails. -/
theorem Execute_clean_stream_without_result :
    resolveChat demoEntity saveFailingUseCase demoContext demoInput
      = ([Event.FindChatByID demoContext "chat-1"], .ok demoChat) ∧
    demoEntity.NewMessage "user" demoInput.UserMessage demoChat.Config.Model
      = .ok demoUserMessage ∧
    demoEntity.AddMessage demoChat demoUserMessage = .ok demoChatWithUser ∧
    saveFailingUseCase.OpenAIClient.CreateChatCompletionStream Context.Background
        (buildRequest demoChatWithUser)
      = .ok (deltaItems ["Hel", "lo, ", "world"] ++ [RecvResult.EOF]) ∧
    sends (Execute demoEntity saveFailingUseCase demoContext demoInput).trace
      = [{ ChatID := "chat-1", UserID := "user-1", Content := "Hel" },
         { ChatID := "chat-1", UserID := "user-1", Content := "Hello, " },
         { ChatID := "chat-1", UserID := "user-1", Content := "Hello, world" }] ∧
    (Execute demoEntity saveFailingUseCase demoContext demoInput).outcome
      = Outcome.Error "db down" ∧
    ¬ ∃ out, (Execute demoEntity saveFailingUseCase demoContext demoInput).outcome
      = Outcome.Ok out := by
  refine ⟨rfl, rfl, rfl, rfl, by decide, by decide, ?_⟩
  rintro ⟨out, h⟩
  have h2 : (Execute demoEntity saveFailingUseCase demoContext demoInput).outcome
      = Outcome.Error "db down" := by decide
  rw [h2] at h
  cases h

/-- Witness of C2: the run of the example returns a result, and its single
`SaveChat` call, the last step, is made on the chat with the user message "Hi"
and the answer "Hello, world" appended. -/
theorem Execute_success_saves_complete_chat_witness :
    (Execute demoEntity demoUseCase demoContext demoInput).outcome
      = Outcome.Ok { ChatID := "chat-1", UserID := "user-1", Content := "Hello, world" } ∧
    ∃ chat2,
      saveCalls (Execute demoEntity demoUseCase demoContext demoInput).trace
        = [(demoContext, chat2)] ∧
      (Execute demoEntity demoUseCase demoContext demoInput).trace.getLast?
        = some (Event.SaveChat demoContext chat2) := by
  obtain ⟨_, _, _, _, _, _, _, _, chat2, h⟩ :=
    Execute_success_saves_complete_chat demoEntity demoUseCase demoContext demoInput
      { ChatID := "chat-1", UserID := "user-1", Content := "Hello, world" } (by decide)
  exact ⟨by decide, chat2, h.2.2.2.2.2.2.2.1, h.2.2.2.2.2.2.2.2.1⟩

/-- Witness of C3: a stream that gives "Hel" and then fails. -/
theorem Execute_stream_error_aborts_witness :
    resolveChat demoEntity brokenStreamUseCase demoContext demoInput
      = ([Event.FindChatByID demoContext "chat-1"], .ok demoChat) ∧
    demoEntity.NewMessage "user" demoInput.UserMessage demoChat.Config.Model
      = .ok demoUserMessage ∧
    demoEntity.AddMessage demoChat demoUserMessage = .ok demoChatWithUser ∧
    brokenStreamUseCase.OpenAIClient.CreateChatCompletionStream Context.Background
        (buildRequest demoChatWithUser)
      = .ok ([({ Choices := [{ DeltaContent := "Hel" }] } : ChatCompletionStreamResponse)].map
          RecvResult.Response ++ RecvResult.Err "connection reset" :: []) ∧
    (Execute demoEntity brokenStreamUseCase demoContext demoInput).outcome
      = Outcome.Error "error streaming response: connection reset" ∧
    saveCalls (Execute demoEntity brokenStreamUseCase demoContext demoInput).trace = [] ∧
    messageBuilds "assistant"
      (Execute demoEntity brokenStreamUseCase demoContext demoInput).trace = [] ∧
    (sends (Execute demoEntity brokenStreamUseCase demoContext demoInput).trace).length = 1 := by
  have h := Execute_stream_error_aborts demoEntity brokenStreamUseCase demoContext demoInput
    [Event.FindChatByID demoContext "chat-1"] demoChat demoChatWithUser demoUserMessage
    [{ Choices := [{ DeltaContent := "Hel" }] }] ["Hel"] "connection reset" [] rfl rfl rfl rfl rfl
  exact ⟨rfl, rfl, rfl, rfl, h.1, h.2.1, h.2.2.1, h.2.2.2.2.1⟩

/-- Witness of C4: a store whose lookup fails with "connection refused". -/
theorem Execute_lookup_failure_aborts_witness :
    unreachableUseCase.ChatGateway.FindChatByID demoContext demoInput.ChatID
      = .error "connection refused" ∧
    "connection refused" ≠ "chat not found" ∧
    Execute demoEntity unreachableUseCase demoContext demoInput =
      ⟨[Event.FindChatByID demoContext "chat-1"],
        Outcome.Error "error fetching existing chat: connection refused"⟩ :=
  ⟨rfl, by decide,
    (Execute_lookup_failure_aborts demoEntity unreachableUseCase demoContext demoInput
      "connection refused" rfl (by decide)).1⟩

/-- Witness of C5: an unknown chat identity with the initial system message
"You are helpful.". -/
theorem Execute_bootstraps_new_chat_witness :
    newChatUseCase.ChatGateway.FindChatByID demoContext demoInput.ChatID
      = .error "chat not found" ∧
    demoEntity.NewMessage "system" demoInput.Config.InitialSystemMessage
        (demoEntity.NewModel demoInput.Config.Model demoInput.Config.ModelMaxTokens)
      = .ok { Role := "system", Content := "You are helpful.", Tokens := 16 } ∧
    demoEntity.NewChat demoInput.UserID
        { Role := "system", Content := "You are helpful.", Tokens := 16 } demoChatConfig
      = .ok demoChat ∧
    EntityLaws demoEntity ∧
    (createNewChat demoEntity demoInput).2 = .ok demoChat ∧
    (resolveChat demoEntity newChatUseCase demoContext demoInput).2 = .ok demoChat ∧
    createCalls (Execute demoEntity newChatUseCase demoContext demoInput).trace
      = [(demoContext, demoChat)] ∧
    demoChat.Messages = [{ Role := "system", Content := "You are helpful.", Tokens := 16 }] ∧
    demoChat.UserID = "user-1" := by
  have h := Execute_bootstraps_new_chat demoEntity newChatUseCase demoContext demoInput
    { Role := "system", Content := "You are helpful.", Tokens := 16 } demoChat rfl rfl rfl
  have hl := h.2.2.2.2.2 (specEntity_laws charTokens "chat-1")
  exact ⟨rfl, rfl, rfl, specEntity_laws charTokens "chat-1", congrArg Prod.snd h.1,
    h.2.2.1 rfl, h.2.2.2.1, hl.1, hl.2.2.2.1⟩

/-- Witness of C6: a provider whose streaming call fails with "401 unauthorized". -/
theorem Execute_provider_failure_aborts_witness :
    resolveChat demoEntity failingProviderUseCase demoContext demoInput
      = ([Event.FindChatByID demoContext "chat-1"], .ok demoChat) ∧
    demoEntity.NewMessage "user" demoInput.UserMessage demoChat.Config.Model
      = .ok demoUserMessage ∧
    demoEntity.AddMessage demoChat demoUserMessage = .ok demoChatWithUser ∧
    failingProviderUseCase.OpenAIClient.CreateChatCompletionStream Context.Background
        (buildRequest demoChatWithUser) = .error "401 unauthorized" ∧
    (Execute demoEntity failingProviderUseCase demoContext demoInput).outcome
      = Outcome.Error "error openai: 401 unauthorized" ∧
    sends (Execute demoEntity failingProviderUseCase demoContext demoInput).trace = [] ∧
    saveCalls (Execute demoEntity failingProviderUseCase demoContext demoInput).trace = [] := by
  have h := Execute_provider_failure_aborts demoEntity failingProviderUseCase demoContext
    demoInput [Event.FindChatByID demoContext "chat-1"] demoChat demoChatWithUser
    demoUserMessage "401 unauthorized" rfl rfl rfl rfl
  exact ⟨rfl, rfl, rfl, rfl, h.1, h.2.1, h.2.2.1⟩

/-- C7, at a failing input: the chat is stored, the stream gives "Hel", "lo, ",
"world" and ends, and `SaveChat` fails with "db down"; `Execute` returns the
error "db down", which is the cause itself, with no text naming the phase. -/
theorem Execute_save_error_is_unwrapped :
    (∀ c chat, saveFailingUseCase.ChatGateway.SaveChat c chat = some "db down") ∧
    saveCalls (Execute demoEntity saveFailingUseCase demoContext demoInput).trace
      = [(demoContext, demoChatWithAnswer)] ∧
    (Execute demoEntity saveFailingUseCase demoContext demoInput).outcome
      = Outcome.Error "db down" :=
  ⟨fun _ _ => rfl, by decide, by decide⟩

/-- Counterexample to C8 as stated: the chat has to be created and the user
text cannot be made a message; `Execute` aborts, and by then `CreateChat` has
been called. -/
theorem Execute_user_message_failure_after_create :
    newChatUseCase.ChatGateway.FindChatByID demoContext emptyMessageInput.ChatID
      = .error "chat not found" ∧
    demoEntity.NewMessage "user" emptyMessageInput.UserMessage demoChat.Config.Model
      = .error "content cannot be tokenized" ∧
    (Execute demoEntity newChatUseCase demoContext emptyMessageInput).outcome
      = Outcome.Error "error creating new message: content cannot be tokenized" ∧
    createCalls (Execute demoEntity newChatUseCase demoContext emptyMessageInput).trace
      = [(demoContext, demoChat)] :=
  ⟨rfl, rfl, by decide, by decide⟩

/-- Witness of C8 (as amended): the chat is stored and the user text is empty. -/
theorem Execute_user_message_failure_aborts_witness :
    resolveChat demoEntity demoUseCase demoContext emptyMessageInput
      = ([Event.FindChatByID demoContext "chat-1"], .ok demoChat) ∧
    demoEntity.NewMessage "user" emptyMessageInput.UserMessage demoChat.Config.Model
      = .error "content cannot be tokenized" ∧
    (Execute demoEntity demoUseCase demoContext emptyMessageInput).outcome
      = Outcome.Error "error creating new message: content cannot be tokenized" ∧
    saveCalls (Execute demoEntity demoUseCase demoContext emptyMessageInput).trace = [] ∧
    appends (Execute demoEntity demoUseCase demoContext emptyMessageInput).trace = [] ∧
    providerCalls (Execute demoEntity demoUseCase demoContext emptyMessageInput).trace = [] ∧
    sends (Execute demoEntity demoUseCase demoContext emptyMessageInput).trace = [] ∧
    createCalls (Execute demoEntity demoUseCase demoContext emptyMessageInput).trace = [] := by
  have h := Execute_user_message_failure_aborts demoEntity demoUseCase demoContext
    emptyMessageInput [Event.FindChatByID demoContext "chat-1"] demoChat
    "content cannot be tokenized" rfl rfl
  exact ⟨rfl, rfl, h.1, h.2.1, h.2.2.1, h.2.2.2.1, h.2.2.2.2.1, h.2.2.2.2.2.1 demoChat rfl⟩

/-- C9, at a failing input: the caller passes a context that can be cancelled;
the store calls of the run receive it, and the provider's streaming call
receives `context.Background()` instead. -/
theorem Execute_provider_call_gets_background :
    demoContext ≠ Context.Background ∧
    (Execute demoEntity demoUseCase demoContext demoInput).trace.head?
      = some (Event.FindChatByID demoContext "chat-1") ∧
    saveCalls (Execute demoEntity demoUseCase demoContext demoInput).trace
      = [(demoContext, demoChatWithAnswer)] ∧
    providerCalls (Execute demoEntity demoUseCase demoContext demoInput).trace
      = [(Context.Background, buildRequest demoChatWithUser)] :=
  ⟨by decide, by decide, by decide, by decide⟩

/-- Witness of C10: the request of the example carries the system message and
the user message, in this order. -/
theorem Execute_request_projects_history_witness :
    resolveChat demoEntity demoUseCase demoContext demoInput
      = ([Event.FindChatByID demoContext "chat-1"], .ok demoChat) ∧
    demoEntity.NewMessage "user" demoInput.UserMessage demoChat.Config.Model
      = .ok demoUserMessage ∧
    demoEntity.AddMessage demoChat demoUserMessage = .ok demoChatWithUser ∧
    ∃ c request,
      providerCalls (Execute demoEntity demoUseCase demoContext demoInput).trace
        = [(c, request)] ∧
      request.Messages.length = 2 ∧
      request.Messages[1]? = some { Role := "user", Content := "Hi" } ∧
      request.Model = "gpt-3.5-turbo" ∧
      request.Stream = true := by
  obtain ⟨c, request, h⟩ := Execute_request_projects_history demoEntity demoUseCase demoContext
    demoInput [Event.FindChatByID demoContext "chat-1"] demoChat demoChatWithUser
    demoUserMessage rfl rfl rfl
  exact ⟨rfl, rfl, rfl, c, request, h.1, h.2.1, h.2.2.1 1, h.2.2.2.1, h.2.2.2.2.2.2.2.2.2.2⟩

end ChatCompletionStream
